import Mathlib

/-!
Formal model of the heart-rate zone and metrics engine implemented by the
class HRController in hr_controller.py.

Modelling conventions:
* Python float arithmetic on the small quantities involved is modelled by
  exact rational arithmetic over ℚ.
* Python's built-in round (round-half-to-even) is modelled by pyRound.
* Python integer true-division by zero raises ZeroDivisionError; a method
  that can raise is modelled as returning an Option, with none for the
  raised error.
* The mutable instance attributes of HRController are the record HRState;
  each method takes the state and returns its result paired with the
  state after the call (calculate_zones is the only method that assigns
  to self).
* The attribute self.zones is a dict that is either empty (at
  construction) or a full 5-entry table written by calculate_zones, so it
  is modelled as an Option ZoneTable.
-/

/-- Python's round: round half to even, on rationals. -/
def pyRound (q : ℚ) : ℤ :=
  let n : ℤ := ⌊q⌋
  if q - (n : ℚ) < 1/2 then n
  else if 1/2 < q - (n : ℚ) then n + 1
  else if n % 2 = 0 then n else n + 1

/-- One entry of the zone dictionary: the keys "min" and "max". -/
structure Zone where
  min : ℤ
  max : ℤ
deriving DecidableEq

/-- The 5-entry zone dictionary written by calculate_zones. -/
structure ZoneTable where
  z1 : Zone
  z2 : Zone
  z3 : Zone
  z4 : Zone
  z5 : Zone
deriving DecidableEq

/-- The instance attributes set in HRController.__init__. -/
structure HRState where
  zones : Option ZoneTable
  current_zone : ℕ
  resting_hr : ℤ
  max_hr : ℤ
  weight_kg : ℚ
deriving DecidableEq

/-- The state of a freshly constructed HRController (its __init__). -/
def HRState.init : HRState :=
  { zones := none, current_zone := 0, resting_hr := 60, max_hr := 190,
    weight_kg := 70 }

/-- HRController.calculate_zones.  The parameter max_hr defaults to None;
Python's `if not max_hr` is also taken when the supplied value is 0. -/
def calculate_zones (s : HRState) (age resting_hr : ℤ) (max_hr : Option ℤ) :
    ZoneTable × HRState :=
  let m : ℤ :=
    match max_hr with
    | none => 220 - age
    | some v => if v = 0 then 220 - age else v
  let hr_reserve : ℤ := m - resting_hr
  let t : ZoneTable :=
    { z1 := ⟨pyRound ((resting_hr : ℚ) + (hr_reserve : ℚ) * 0.5),
             pyRound ((resting_hr : ℚ) + (hr_reserve : ℚ) * 0.6) - 1⟩
      z2 := ⟨pyRound ((resting_hr : ℚ) + (hr_reserve : ℚ) * 0.6),
             pyRound ((resting_hr : ℚ) + (hr_reserve : ℚ) * 0.7) - 1⟩
      z3 := ⟨pyRound ((resting_hr : ℚ) + (hr_reserve : ℚ) * 0.7),
             pyRound ((resting_hr : ℚ) + (hr_reserve : ℚ) * 0.8) - 1⟩
      z4 := ⟨pyRound ((resting_hr : ℚ) + (hr_reserve : ℚ) * 0.8),
             pyRound ((resting_hr : ℚ) + (hr_reserve : ℚ) * 0.9) - 1⟩
      z5 := ⟨pyRound ((resting_hr : ℚ) + (hr_reserve : ℚ) * 0.9), m⟩ }
  (t, { s with zones := some t, resting_hr := resting_hr, max_hr := m })

/-- HRController.get_zone. -/
def get_zone (s : HRState) (hr : ℤ) : ℕ × HRState :=
  match s.zones with
  | none => (0, s)
  | some t =>
    if hr < t.z1.min then (0, s)
    else if hr ≤ t.z1.max then (1, s)
    else if hr ≤ t.z2.max then (2, s)
    else if hr ≤ t.z3.max then (3, s)
    else if hr ≤ t.z4.max then (4, s)
    else (5, s)

/-- HRController.calculate_wattage.  The division by
(self.max_hr - self.resting_hr) raises ZeroDivisionError when the reserve
is zero, modelled by none. -/
def calculate_wattage (s : HRState) (hr : ℤ) (weight : ℚ) :
    Option ℤ × HRState :=
  if hr < s.resting_hr then (some 0, s)
  else if s.max_hr - s.resting_hr = 0 then (none, s)
  else
    let hr_reserve_used : ℚ :=
      ((hr : ℚ) - (s.resting_hr : ℚ)) / ((s.max_hr : ℚ) - (s.resting_hr : ℚ))
    let base_watts : ℚ := weight * 3
    (some (pyRound (base_watts * hr_reserve_used)), s)

/-- HRController.calculate_calories.  The only division by a stored value
is hr / self.max_hr, which raises exactly when max_hr = 0. -/
def calculate_calories (s : HRState) (hr : ℤ) (duration_minutes weight : ℚ) :
    Option ℤ × HRState :=
  if hr < s.resting_hr then (some 0, s)
  else if s.max_hr = 0 then (none, s)
  else
    let hr_percent : ℚ := (hr : ℚ) / (s.max_hr : ℚ)
    let met : ℚ :=
      if hr_percent < 0.5 then 2
      else if hr_percent < 0.6 then 3.5
      else if hr_percent < 0.7 then 5
      else if hr_percent < 0.8 then 7
      else if hr_percent < 0.9 then 10
      else 12
    (some (pyRound (met * weight * (duration_minutes / 60))), s)

/-- HRController.calculate_recovery_time.  The intensity division happens
before any branching, so a zero reserve raises for every argument. -/
def calculate_recovery_time (s : HRState) (workout_duration_minutes : ℚ)
    (avg_hr : ℤ) : Option ℚ × HRState :=
  if s.max_hr - s.resting_hr = 0 then (none, s)
  else
    let hr_intensity : ℚ :=
      ((avg_hr : ℚ) - (s.resting_hr : ℚ)) /
        ((s.max_hr : ℚ) - (s.resting_hr : ℚ))
    let recovery_factor : ℚ :=
      if hr_intensity < 0.6 then 0.2
      else if hr_intensity < 0.75 then 0.3
      else if hr_intensity < 0.85 then 0.5
      else 0.7
    let base_recovery_hours : ℚ := workout_duration_minutes / 60
    (some ((pyRound (base_recovery_hours * (1 + recovery_factor) * 2) : ℚ) / 2),
      s)

/-- One step of the counting loop in calculate_zone_distribution:
zone_counts[self.get_zone(hr)] += 1. -/
def zone_count_step (s : HRState) (c : ℕ → ℕ) (hr : ℤ) : ℕ → ℕ :=
  fun z => if z = (get_zone s hr).1 then c z + 1 else c z

/-- HRController.calculate_zone_distribution. -/
def calculate_zone_distribution (s : HRState) (hr_samples : List ℤ) :
    (ℕ → ℤ) × HRState :=
  if hr_samples = [] then (fun _ => 0, s)
  else
    let total_samples : ℕ := hr_samples.length
    let zone_counts : ℕ → ℕ :=
      hr_samples.foldl (zone_count_step s) (fun _ => 0)
    (fun z => pyRound (((zone_counts z : ℚ) / (total_samples : ℚ)) * 100), s)

/-- The "max" entry of the zone with index i (indices 1..5 are used). -/
def zoneMax (t : ZoneTable) : ℕ → ℤ
  | 1 => t.z1.max
  | 2 => t.z2.max
  | 3 => t.z3.max
  | 4 => t.z4.max
  | _ => t.z5.max

/-- Modelled from the spec wording for the classifier: the smallest zone
index i whose upper bound admits hr, scanning zones 1..4 in order, with 5
as the default of the final else branch (no upper-bound check on zone 5). -/
def smallestZone (t : ZoneTable) (hr : ℤ) : ℕ :=
  (((List.range' 1 4).find? fun i => decide (hr ≤ zoneMax t i)).getD 5)

/-- C1: for every age, restingHR and maxHR with maxHR > restingHR, the zone
table returned by calculate_zones has contiguous, non-overlapping zone
boundaries: the max of zone i plus one equals the min of zone i+1 for
every i in 1..4. -/
theorem calculate_zones_contiguous (s : HRState) (age resting m : ℤ)
    (hmr : resting < m) :
    ((calculate_zones s age resting (some m)).1.z1.max + 1 =
      (calculate_zones s age resting (some m)).1.z2.min) ∧
    ((calculate_zones s age resting (some m)).1.z2.max + 1 =
      (calculate_zones s age resting (some m)).1.z3.min) ∧
    ((calculate_zones s age resting (some m)).1.z3.max + 1 =
      (calculate_zones s age resting (some m)).1.z4.min) ∧
    ((calculate_zones s age resting (some m)).1.z4.max + 1 =
      (calculate_zones s age resting (some m)).1.z5.min) := by
  simp only [calculate_zones]
  split_ifs <;> exact ⟨by omega, by omega, by omega, by omega⟩

/-- Witness for C1 at age 30, restingHR 60, maxHR 190. -/
theorem calculate_zones_contiguous_witness :
    (60 : ℤ) < 190 ∧
    ((calculate_zones HRState.init 30 60 (some 190)).1.z1.max + 1 =
      (calculate_zones HRState.init 30 60 (some 190)).1.z2.min) :=
  ⟨by norm_num,
    (calculate_zones_contiguous HRState.init 30 60 190 (by norm_num)).1⟩

/-- C2: for every age, restingHR and (positive, hence not replaced by the
age formula) maxHR, the zone table has max of zone 5 equal to maxHR and
min of zone 1 equal to round(restingHR + 0.5*(maxHR - restingHR)); and at
age 30, restingHR 60, maxHR 190 the table is 125-137, 138-150, 151-163,
164-176, 177-190. -/
theorem calculate_zones_endpoints (s : HRState) (age resting m : ℤ)
    (hm : 0 < m) :
    ((calculate_zones s age resting (some m)).1.z5.max = m) ∧
    ((calculate_zones s age resting (some m)).1.z1.min =
      pyRound ((resting : ℚ) + 0.5 * ((m : ℚ) - (resting : ℚ)))) ∧
    ((calculate_zones HRState.init 30 60 (some 190)).1 =
      ⟨⟨125, 137⟩, ⟨138, 150⟩, ⟨151, 163⟩, ⟨164, 176⟩, ⟨177, 190⟩⟩) := by
  refine ⟨?_, ?_, ?_⟩
  · simp only [calculate_zones]
    rw [if_neg hm.ne']
  · simp only [calculate_zones]
    rw [if_neg hm.ne']
    congr 1
    push_cast
    ring
  · simp only [calculate_zones, HRState.init, ZoneTable.mk.injEq, Zone.mk.injEq]
    norm_num [pyRound]

/-- Witness for C2 at age 30, restingHR 60, maxHR 190. -/
theorem calculate_zones_endpoints_witness :
    (0 : ℤ) < 190 ∧
    (calculate_zones HRState.init 30 60 (some 190)).1.z5.max = 190 :=
  ⟨by norm_num,
    (calculate_zones_endpoints HRState.init 30 60 190 (by norm_num)).1⟩

/-- C4: with stored restingHR < maxHR, calculate_wattage returns 0 for
hr below restingHR and round(weight*3*(hr - restingHR)/(maxHR - restingHR))
for hr at or above restingHR; in particular on the default profile
(restingHR 60, maxHR 190) wattage at hr 125, weight 70 is 105. -/
theorem calculate_wattage_spec (s : HRState) (hmr : s.resting_hr < s.max_hr) :
    (∀ hr w, hr < s.resting_hr → (calculate_wattage s hr w).1 = some 0) ∧
    (∀ hr w, s.resting_hr ≤ hr → (calculate_wattage s hr w).1 =
      some (pyRound (w * 3 * ((hr : ℚ) - (s.resting_hr : ℚ)) /
        ((s.max_hr : ℚ) - (s.resting_hr : ℚ))))) ∧
    ((calculate_wattage HRState.init 125 70).1 = some 105) := by
  refine ⟨?_, ?_, ?_⟩
  · intro hr w h
    simp [calculate_wattage, h]
  · intro hr w h
    have h1 : ¬ hr < s.resting_hr := not_lt.2 h
    have h2 : ¬ s.max_hr - s.resting_hr = 0 := by omega
    simp only [calculate_wattage, if_neg h1, if_neg h2]
    congr 2
    ring
  · simp only [calculate_wattage, HRState.init]
    norm_num [pyRound]

/-- Witness for C4 on the default profile. -/
theorem calculate_wattage_spec_witness :
    HRState.init.resting_hr < HRState.init.max_hr ∧
    (calculate_wattage HRState.init 40 70).1 = some 0 :=
  ⟨by norm_num [HRState.init],
    (calculate_wattage_spec HRState.init (by norm_num [HRState.init])).1 40 70
      (by norm_num [HRState.init])⟩

/-- C6: when the stored maxHR equals the stored restingHR, the zero HR
reserve makes calculate_wattage (for hr at or above restingHR) and
calculate_recovery_time (for all arguments) hit the modelled
division-by-zero error (none) instead of returning a value. -/
theorem zero_reserve_division_error (s : HRState) (h : s.max_hr = s.resting_hr) :
    (∀ hr w, s.resting_hr ≤ hr → (calculate_wattage s hr w).1 = none) ∧
    (∀ d a, (calculate_recovery_time s d a).1 = none) := by
  constructor
  · intro hr w hge
    simp [calculate_wattage, not_lt.2 hge, h]
  · intro d a
    simp [calculate_recovery_time, h]

/-- Witness for C6 on a state with restingHR = maxHR = 60. -/
theorem zero_reserve_division_error_witness :
    (calculate_wattage ⟨none, 0, 60, 60, 70⟩ 100 70).1 = none ∧
    (calculate_recovery_time ⟨none, 0, 60, 60, 70⟩ 45 120).1 = none :=
  ⟨(zero_reserve_division_error ⟨none, 0, 60, 60, 70⟩ rfl).1 100 70
      (by norm_num),
    (zero_reserve_division_error ⟨none, 0, 60, 60, 70⟩ rfl).2 45 120⟩

/-- C10: calculate_calories never divides by the HR reserve; its only
division by stored state is hr / maxHR, so whenever the stored maxHR is
nonzero it returns a value (isSome), even when maxHR = restingHR. -/
theorem calculate_calories_no_reserve_division (s : HRState) (hr : ℤ)
    (d w : ℚ) (h : s.max_hr ≠ 0) :
    ((calculate_calories s hr d w).1).isSome := by
  simp only [calculate_calories]
  split_ifs <;> simp_all

/-- Witness for C10 on a zero-reserve state with maxHR = restingHR = 60. -/
theorem calculate_calories_no_reserve_division_witness :
    ((calculate_calories ⟨none, 0, 60, 60, 70⟩ 100 30 70).1).isSome :=
  calculate_calories_no_reserve_division ⟨none, 0, 60, 60, 70⟩ 100 30 70
    (by norm_num)

/-- C8: for every fixed engine state (empty table included), get_zone is
monotonic non-decreasing in hr. -/
theorem get_zone_monotone (s : HRState) (hr1 hr2 : ℤ) (h : hr1 ≤ hr2) :
    (get_zone s hr1).1 ≤ (get_zone s hr2).1 := by
  cases hz : s.zones with
  | none => simp [get_zone, hz]
  | some t =>
    simp only [get_zone, hz]
    split_ifs <;> omega

/-- Witness for C8 on the default state at hr 100 and 150. -/
theorem get_zone_monotone_witness :
    (get_zone HRState.init 100).1 ≤ (get_zone HRState.init 150).1 :=
  get_zone_monotone HRState.init 100 150 (by norm_num)

/-- The find?-based classifier agrees with the nested comparison chain. -/
theorem smallestZone_eq (t : ZoneTable) (hr : ℤ) :
    smallestZone t hr =
      if hr ≤ t.z1.max then 1
      else if hr ≤ t.z2.max then 2
      else if hr ≤ t.z3.max then 3
      else if hr ≤ t.z4.max then 4
      else 5 := by
  have h4 : List.range' 1 4 = [1, 2, 3, 4] := rfl
  simp only [smallestZone, h4, List.find?, zoneMax]
  by_cases h1 : hr ≤ t.z1.max <;> by_cases h2 : hr ≤ t.z2.max <;>
    by_cases h3 : hr ≤ t.z3.max <;> by_cases hz4 : hr ≤ t.z4.max <;>
    simp [h1, h2, h3, hz4]

/-- C3: get_zone always returns a zone index at most 5; it returns 0 when
the zone table is uncalculated; and on a calculated table it returns 0
below the min of zone 1 and otherwise the smallest zone index whose max
admits hr, scanning zones 1..4, with 5 as the unchecked final else. -/
theorem get_zone_classification (s : HRState) (hr : ℤ) :
    ((get_zone s hr).1 ≤ 5) ∧
    (s.zones = none → (get_zone s hr).1 = 0) ∧
    (∀ t, s.zones = some t → (get_zone s hr).1 =
      if hr < t.z1.min then 0 else smallestZone t hr) := by
  refine ⟨?_, ?_, ?_⟩
  · cases hz : s.zones with
    | none => simp [get_zone, hz]
    | some t =>
      simp only [get_zone, hz]
      split_ifs <;> omega
  · intro hz
    simp [get_zone, hz]
  · intro t ht
    simp only [get_zone, ht, smallestZone_eq]
    split_ifs <;> rfl

/-- Witness for C3 on the default (uncalculated) state at hr 130. -/
theorem get_zone_classification_witness :
    (get_zone HRState.init 130).1 = 0 :=
  (get_zone_classification HRState.init 130).2.1 rfl

/-- C9: get_zone, calculate_wattage, calculate_calories,
calculate_recovery_time and calculate_zone_distribution leave the engine
state unchanged; calculate_zones writes only the zone table and the cached
restingHR and maxHR, leaving current_zone and weight_kg unchanged. -/
theorem engine_state_frame (s : HRState) :
    (∀ hr, (get_zone s hr).2 = s) ∧
    (∀ hr w, (calculate_wattage s hr w).2 = s) ∧
    (∀ hr d w, (calculate_calories s hr d w).2 = s) ∧
    (∀ d a, (calculate_recovery_time s d a).2 = s) ∧
    (∀ samples, (calculate_zone_distribution s samples).2 = s) ∧
    (∀ age r m, (calculate_zones s age r m).2.current_zone = s.current_zone ∧
      (calculate_zones s age r m).2.weight_kg = s.weight_kg ∧
      (calculate_zones s age r m).2.zones =
        some (calculate_zones s age r m).1 ∧
      (calculate_zones s age r m).2.resting_hr = r) := by
  refine ⟨?_, ?_, ?_, ?_, ?_, ?_⟩
  · intro hr
    cases hz : s.zones <;> simp only [get_zone, hz] <;> split_ifs <;> rfl
  · intro hr w
    simp only [calculate_wattage]
    split_ifs <;> rfl
  · intro hr d w
    simp only [calculate_calories]
    split_ifs <;> rfl
  · intro d a
    simp only [calculate_recovery_time]
    split_ifs <;> rfl
  · intro samples
    simp only [calculate_zone_distribution]
    split_ifs <;> rfl
  · intro age r m
    cases m <;> simp [calculate_zones]

/-- C5 counterexample: on a freshly constructed engine, calculate_wattage
at hr 125, weight 70 returns 105, not a zero-valued output, because the
constructor presets restingHR 60 and maxHR 190. -/
theorem fresh_engine_nonzero_output :
    (calculate_wattage HRState.init 125 70).1 = some 105 ∧
    (calculate_wattage HRState.init 125 70).1 ≠ some 0 := by
  constructor <;> simp only [calculate_wattage, HRState.init] <;>
    norm_num [pyRound]

/-- C5 amended: on a freshly constructed engine get_zone returns 0 for
every hr; the estimators never error, computing from the preset default
profile restingHR 60, maxHR 190, and calculate_wattage returns 0 exactly
for hr below the default restingHR 60. -/
theorem fresh_engine_behavior :
    (∀ hr, (get_zone HRState.init hr).1 = 0) ∧
    (∀ hr w, hr < 60 → (calculate_wattage HRState.init hr w).1 = some 0) ∧
    (∀ hr w, ((calculate_wattage HRState.init hr w).1).isSome) ∧
    (∀ hr d w, ((calculate_calories HRState.init hr d w).1).isSome) ∧
    (∀ d a, ((calculate_recovery_time HRState.init d a).1).isSome) := by
  refine ⟨?_, ?_, ?_, ?_, ?_⟩
  · intro hr
    simp [get_zone, HRState.init]
  · intro hr w h
    simp [calculate_wattage, HRState.init, h]
  · intro hr w
    simp only [calculate_wattage, HRState.init]
    split_ifs <;> simp_all
  · intro hr d w
    simp only [calculate_calories, HRState.init]
    split_ifs <;> simp_all
  · intro d a
    simp only [calculate_recovery_time, HRState.init]
    split_ifs <;> simp_all

/-- The counting loop of calculate_zone_distribution computes, at each
zone index, the accumulator plus the number of samples classified there. -/
theorem zone_counts_foldl (s : HRState) (samples : List ℤ) (c : ℕ → ℕ)
    (z : ℕ) :
    (samples.foldl (zone_count_step s) c) z =
      c z + samples.countP (fun hr => decide ((get_zone s hr).1 = z)) := by
  induction samples generalizing c with
  | nil => simp
  | cons a l ih =>
    rw [List.foldl_cons, ih, List.countP_cons]
    simp only [zone_count_step]
    by_cases hza : (get_zone s a).1 = z
    · simp [hza]
      omega
    · have hza' : ¬ z = (get_zone s a).1 := fun h => hza h.symm
      simp [hza, hza']

/-- C7: calculate_zone_distribution maps each zone to
round(count / totalSamples * 100) with independently rounded percentages;
on the empty sample list every percentage is 0; and on the table for
age 30, restingHR 60, maxHR 190 with samples 100, 130, 140 the six
percentages sum to 99, not 100. -/
theorem zone_distribution_spec (s : HRState) (samples : List ℤ) :
    (samples = [] → ∀ z, (calculate_zone_distribution s samples).1 z = 0) ∧
    (samples ≠ [] → ∀ z, (calculate_zone_distribution s samples).1 z =
      pyRound ((((samples.countP
          fun hr => decide ((get_zone s hr).1 = z)) : ℚ) /
        ((samples.length : ℕ) : ℚ)) * 100)) ∧
    (((calculate_zone_distribution
          (calculate_zones HRState.init 30 60 (some 190)).2 [100, 130, 140]).1 0 +
      (calculate_zone_distribution
          (calculate_zones HRState.init 30 60 (some 190)).2 [100, 130, 140]).1 1 +
      (calculate_zone_distribution
          (calculate_zones HRState.init 30 60 (some 190)).2 [100, 130, 140]).1 2 +
      (calculate_zone_distribution
          (calculate_zones HRState.init 30 60 (some 190)).2 [100, 130, 140]).1 3 +
      (calculate_zone_distribution
          (calculate_zones HRState.init 30 60 (some 190)).2 [100, 130, 140]).1 4 +
      (calculate_zone_distribution
          (calculate_zones HRState.init 30 60 (some 190)).2 [100, 130, 140]).1 5)
      = 99) := by
  have hgen : ∀ (s' : HRState) (l : List ℤ), l ≠ [] → ∀ z,
      (calculate_zone_distribution s' l).1 z =
        pyRound ((((l.countP fun hr => decide ((get_zone s' hr).1 = z)) : ℚ) /
          ((l.length : ℕ) : ℚ)) * 100) := by
    intro s' l hl z
    simp only [calculate_zone_distribution, if_neg hl]
    rw [zone_counts_foldl]
    simp
  refine ⟨?_, fun h z => hgen s samples h z, ?_⟩
  · intro h z
    simp [calculate_zone_distribution, h]
  · have hst : (calculate_zones HRState.init 30 60 (some 190)).2 =
        (⟨some ⟨⟨125, 137⟩, ⟨138, 150⟩, ⟨151, 163⟩, ⟨164, 176⟩, ⟨177, 190⟩⟩,
          0, 60, 190, 70⟩ : HRState) := by
      simp only [calculate_zones, HRState.init, HRState.mk.injEq,
        ZoneTable.mk.injEq, Zone.mk.injEq, Option.some.injEq]
      norm_num [pyRound]
    rw [hst]
    rw [hgen _ _ (by simp) 0, hgen _ _ (by simp) 1, hgen _ _ (by simp) 2,
      hgen _ _ (by simp) 3, hgen _ _ (by simp) 4, hgen _ _ (by simp) 5]
    norm_num [List.countP, List.countP.go, get_zone, pyRound]

/-- Witness for C7: the empty-list case on the default state, and the
general formula at a singleton sample on the default state. -/
theorem zone_distribution_spec_witness :
    (calculate_zone_distribution HRState.init []).1 3 = 0 ∧
    (calculate_zone_distribution HRState.init [100]).1 0 = 100 := by
  constructor
  · exact (zone_distribution_spec HRState.init []).1 rfl 3
  · rw [(zone_distribution_spec HRState.init [100]).2.1 (by simp) 0]
    norm_num [List.countP, List.countP.go, get_zone, HRState.init, pyRound]

/-- Witness for the amended C5: the fresh engine returns zero wattage at
hr 50, below the default restingHR of 60. -/
theorem fresh_engine_behavior_witness :
    (50 : ℤ) < 60 ∧ (calculate_wattage HRState.init 50 70).1 = some 0 :=
  ⟨by norm_num, fresh_engine_behavior.2.1 50 70 (by norm_num)⟩
